import Mathlib

/-!
# A verification development for `j.c`

`j.c` is a Win32 program: a window procedure `WindowProc` and the entry point
`WinMain`.  Both do nothing but call the platform, so the embedding is a
state-passing one over an explicit *trace* of platform calls.

* `Call` is one platform call with its actual arguments.
* `Trace` is the chronological list of the calls made so far.
* `Platform` is the environment: it answers a call, given the whole history
  before it.  Every theorem quantifies over all platforms, so nothing is
  assumed about what Windows answers.
* `WindowProc` and `WinMain` take the trace so far and return their C return
  value together with the extended trace.

The `while (GetMessage(...))` loop need not terminate, so `messageLoop` takes
an iteration budget and reports whether the loop was left.
-/

namespace Todo

/-! ## Platform types (`windows.h`)

The header `windows.h` belongs to the Windows SDK, not to the repository.  The
types, constants and macros `j.c` takes from it are given here as the SDK
declares them.  Pointers and unsigned integers are natural numbers, signed
integers are integers; the one arithmetic operation of the program, `LOWORD`,
is a mask, so no width matters for it. -/

/-- A window handle; `0` is `NULL`. -/
abbrev HWND := Nat
/-- A module instance handle; `0` is `NULL`. -/
abbrev HINSTANCE := Nat
/-- A menu handle, or a child-window identifier; `0` is `NULL`. -/
abbrev HMENU := Nat
/-- The C type `UINT`. -/
abbrev UINT := Nat
/-- The C type `WPARAM` (`UINT_PTR`). -/
abbrev WPARAM := Nat
/-- The C type `LPARAM` (`LONG_PTR`). -/
abbrev LPARAM := Int
/-- The C type `LRESULT` (`LONG_PTR`). -/
abbrev LRESULT := Int

/-- The null handle. -/
def NULL : Nat := 0

/-- The struct `POINT`. -/
structure POINT where
  x : Int
  y : Int
deriving DecidableEq, Repr

/-- The struct `MSG`. -/
structure MSG where
  hwnd : HWND
  message : UINT
  wParam : WPARAM
  lParam : LPARAM
  time : Nat
  pt : POINT
deriving DecidableEq, Repr

/-- The value of `MSG msg = { };`. -/
def MSG.zero : MSG := ⟨NULL, 0, 0, 0, 0, ⟨0, 0⟩⟩

/-- A value of the function-pointer type `WNDPROC`: null, or the address of
the one window procedure this program defines. -/
inductive WNDPROC where
  | null
  | WindowProc
deriving DecidableEq, Repr

/-- The struct `WNDCLASS`; a string pointer is `none` when null. -/
structure WNDCLASS where
  style : UINT
  lpfnWndProc : WNDPROC
  cbClsExtra : Int
  cbWndExtra : Int
  hInstance : HINSTANCE
  hIcon : Nat
  hCursor : Nat
  hbrBackground : Nat
  lpszMenuName : Option String
  lpszClassName : Option String
deriving DecidableEq, Repr

/-- The value of `WNDCLASS wc = { };`. -/
def WNDCLASS.zero : WNDCLASS := ⟨0, WNDPROC.null, 0, 0, NULL, NULL, NULL, NULL, none, none⟩

/-! ## Platform constants (`windows.h`) -/

/-- Modelled from the spec: the message kind it calls termination.  The
constant is missing from `src/`; the SDK header gives it the value 0x0002. -/
def WM_DESTROY : UINT := 0x0002
/-- Modelled from the spec: a message kind with no case in `WindowProc`.  The
constant is missing from `src/`; the SDK header gives it the value 0x0010. -/
def WM_CLOSE : UINT := 0x0010
/-- Modelled from the spec: the message kind it calls command.  The constant
is missing from `src/`; the SDK header gives it the value 0x0111. -/
def WM_COMMAND : UINT := 0x0111
/-- Modelled from the spec: the dialog style with one OK button.  The constant
is missing from `src/`; the SDK header gives it the value 0. -/
def MB_OK : Nat := 0x00000000
/-- Modelled from the spec: the dialog style with the information icon.  The
constant is missing from `src/`; the SDK header gives it the value 0x40. -/
def MB_ICONINFORMATION : Nat := 0x00000040
/-- Modelled from the spec: a style flag of the top-level window.  The constant
is missing from `src/`; the SDK header gives it the value 0x00CF0000. -/
def WS_OVERLAPPEDWINDOW : Nat := 0x00CF0000
/-- Modelled from the spec: a style flag of the button.  The constant is
missing from `src/`; the SDK header gives it the value 0x00010000. -/
def WS_TABSTOP : Nat := 0x00010000
/-- Modelled from the spec: a style flag of the button.  The constant is
missing from `src/`; the SDK header gives it the value 0x10000000. -/
def WS_VISIBLE : Nat := 0x10000000
/-- Modelled from the spec: a style flag of the button.  The constant is
missing from `src/`; the SDK header gives it the value 0x40000000. -/
def WS_CHILD : Nat := 0x40000000
/-- Modelled from the spec: a style flag of the button.  The constant is
missing from `src/`; the SDK header gives it the value 1. -/
def BS_DEFPUSHBUTTON : Nat := 0x00000001
/-- Modelled from the spec: the platform-chosen position.  The constant is
missing from `src/`; the SDK header defines it as `((int)0x80000000)`. -/
def CW_USEDEFAULT : Int := -2147483648

/-- Modelled from the spec: the sub-identifier of a command message.  The macro
is missing from `src/`; the SDK header defines `LOWORD(l)` as
`((WORD)(((DWORD_PTR)(l)) & 0xffff))`. -/
def LOWORD (l : Nat) : Nat := (l &&& 0xffff) % 65536

/-! ## Platform calls, traces and the environment -/

/-- One call of a platform function, with its actual arguments. -/
inductive Call where
  | PostQuitMessage (nExitCode : Int)
  | MessageBox (hWnd : HWND) (lpText lpCaption : String) (uType : Nat)
  | DefWindowProc (hWnd : HWND) (Msg : UINT) (wParam : WPARAM) (lParam : LPARAM)
  | RegisterClass (wc : WNDCLASS)
  | CreateWindowEx (dwExStyle : Nat) (lpClassName lpWindowName : String) (dwStyle : Nat)
      (X Y nWidth nHeight : Int) (hWndParent : HWND) (hMenu : HMENU)
      (hInstance : HINSTANCE) (lpParam : Nat)
  | ShowWindow (hWnd : HWND) (nCmdShow : Int)
  | UpdateWindow (hWnd : HWND)
  | GetMessage (hWnd : HWND) (wMsgFilterMin wMsgFilterMax : UINT)
  | TranslateMessage (msg : MSG)
  | DispatchMessage (msg : MSG)
deriving DecidableEq, Repr

/-- Modelled from the spec: the creation of the child button.  The macro is
missing from `src/`; the SDK header defines `CreateWindow(...)` as
`CreateWindowEx(0, ...)`. -/
def Call.CreateWindow (lpClassName lpWindowName : String) (dwStyle : Nat)
    (X Y nWidth nHeight : Int) (hWndParent : HWND) (hMenu : HMENU)
    (hInstance : HINSTANCE) (lpParam : Nat) : Call :=
  Call.CreateWindowEx 0 lpClassName lpWindowName dwStyle X Y nWidth nHeight
    hWndParent hMenu hInstance lpParam

/-- The calls made so far, oldest first. -/
abbrev Trace := List Call

/-- What the platform hands back from a call: the integer result (`LRESULT`,
`BOOL`, `int`, `ATOM`), the handle result (`HWND`), and the contents of the
`MSG` out-parameter after the call.  A call uses the fields it has. -/
structure Reply where
  ret : Int
  handle : Nat
  msg : MSG
deriving DecidableEq, Repr

/-- The environment: the answer to a call, given the history before it. -/
abbrev Platform := Trace → Call → Reply

/-- Perform one platform call: ask the platform, record the call. -/
def call (P : Platform) (c : Call) (t : Trace) : Reply × Trace :=
  (P t c, t ++ [c])

/-! ## The program -/

/-- The function `WindowProc` of `j.c`. -/
def WindowProc (P : Platform) (t : Trace) (hwnd : HWND) (msg : UINT)
    (wParam : WPARAM) (lParam : LPARAM) : LRESULT × Trace :=
  if msg = WM_DESTROY then
    let (_, t1) := call P (Call.PostQuitMessage 0) t
    (0, t1)
  else
    let t1 :=
      if msg = WM_COMMAND then
        if LOWORD wParam = 1 then
          (call P (Call.MessageBox hwnd "Bạn đã nhấn nút!" "Thông báo"
            (MB_OK ||| MB_ICONINFORMATION)) t).2
        else t
      else t
    let (r, t2) := call P (Call.DefWindowProc hwnd msg wParam lParam) t1
    (r.ret, t2)

/-- The array `CLASS_NAME` of `WinMain`. -/
def CLASS_NAME : String := "MyWindowClass"

/-- The struct `wc` of `WinMain` as it is when `RegisterClass` is called. -/
def windowClass (hInstance : HINSTANCE) : WNDCLASS :=
  let wc := WNDCLASS.zero
  let wc := { wc with lpfnWndProc := WNDPROC.WindowProc }
  let wc := { wc with hInstance := hInstance }
  { wc with lpszClassName := some CLASS_NAME }

/-- The `GetMessage(&msg, NULL, 0, 0)` call of the loop. -/
def pull : Call := Call.GetMessage NULL 0 0

/-- The `while (GetMessage(&msg, NULL, 0, 0)) { ... }` loop of `WinMain`, run
for at most `fuel` pulls.  The boolean says whether the loop was left. -/
def messageLoop (P : Platform) : Nat → Trace → Trace × Bool
  | 0, t => (t, false)
  | fuel + 1, t =>
    let (r, t1) := call P pull t
    if r.ret ≠ 0 then
      let msg := r.msg
      let (_, t2) := call P (Call.TranslateMessage msg) t1
      let (_, t3) := call P (Call.DispatchMessage msg) t2
      messageLoop P fuel t3
    else (t1, true)

/-- The function `WinMain` of `j.c`, its loop run for at most `fuel` pulls.
The result is the extended trace and the exit code, `none` while the loop has
not been left. -/
def WinMain (P : Platform) (fuel : Nat) (t : Trace) (hInstance _hPrevInstance : HINSTANCE)
    (_lpCmdLine : String) (nCmdShow : Int) : Trace × Option Int :=
  let wc := windowClass hInstance
  let (_, t1) := call P (Call.RegisterClass wc) t
  let (r, t2) := call P (Call.CreateWindowEx 0 CLASS_NAME "Cửa sổ đầu tiên bằng C"
    WS_OVERLAPPEDWINDOW CW_USEDEFAULT CW_USEDEFAULT 400 200 NULL NULL hInstance NULL) t1
  let hwnd := r.handle
  if hwnd = NULL then (t2, some 0)
  else
    let (_, t3) := call P (Call.CreateWindow "BUTTON" "Nhấn tôi"
      (WS_TABSTOP ||| WS_VISIBLE ||| WS_CHILD ||| BS_DEFPUSHBUTTON)
      130 70 120 30 hwnd 1 hInstance NULL) t2
    let (_, t4) := call P (Call.ShowWindow hwnd nCmdShow) t3
    let (_, t5) := call P (Call.UpdateWindow hwnd) t4
    let (t6, left) := messageLoop P fuel t5
    if left then (t6, some 0) else (t6, none)

/-! ## Observations on traces -/

/-- Whether a call is an invocation of the dialog, `MessageBox`. -/
def Call.isMessageBox : Call → Bool
  | Call.MessageBox _ _ _ _ => true
  | _ => false

/-- Whether a call is a `PostQuitMessage`. -/
def Call.isPostQuitMessage : Call → Bool
  | Call.PostQuitMessage _ => true
  | _ => false

/-- Whether a call is a `GetMessage`. -/
def Call.isGetMessage : Call → Bool
  | Call.GetMessage _ _ _ => true
  | _ => false

/-- Whether a call belongs to the message loop: a pull, a translation or a
dispatch. -/
def Call.isLoopCall : Call → Bool
  | Call.GetMessage _ _ _ => true
  | Call.TranslateMessage _ => true
  | Call.DispatchMessage _ => true
  | _ => false

/-- The dialog invocations of a trace, in order. -/
def dialogs (t : Trace) : List Call := t.filter Call.isMessageBox

/-- The termination messages enqueued in a trace, in order. -/
def quits (t : Trace) : List Call := t.filter Call.isPostQuitMessage

/-- Whether a message is a `WM_COMMAND` whose sub-identifier, the low-order 16
bits of `wParam`, is 1. -/
def isButtonCommand (m : MSG) : Bool :=
  decide (m.message = WM_COMMAND) && decide (m.wParam % 65536 = 1)

/-- Deliver a sequence of messages to `WindowProc`, one call after the other,
as the dispatcher does: the four arguments are the first four fields. -/
def deliver (P : Platform) : Trace → List MSG → Trace
  | t, [] => t
  | t, m :: ms => deliver P (WindowProc P t m.hwnd m.message m.wParam m.lParam).2 ms

/-- The calls of one full iteration of the loop on the pulled message `m`. -/
def iteration (m : MSG) : List Call :=
  [pull, Call.TranslateMessage m, Call.DispatchMessage m]

/-- The platform serves the queue `ms` from the trace `t` on: the pull after
the first `k` iterations is answered with a nonzero result and the message
number `k`, for each `k` below the length of `ms`. -/
def servesQueue (P : Platform) (t : Trace) (ms : List MSG) : Prop :=
  ∀ k, k < ms.length →
    (P (t ++ (ms.take k).flatMap iteration) pull).ret ≠ 0 ∧
    some (P (t ++ (ms.take k).flatMap iteration) pull).msg = ms.get? k

/-- The platform signals termination on the pull that follows the queue `ms`:
`GetMessage` returns 0. -/
def thenTerminates (P : Platform) (t : Trace) (ms : List MSG) : Prop :=
  (P (t ++ ms.flatMap iteration) pull).ret = 0

/-- The calls `WinMain` makes before the loop when the window `hwnd` was
created, with the source's literal arguments. -/
def startupCalls (hInstance : HINSTANCE) (nCmdShow : Int) (hwnd : HWND) : List Call :=
  [ Call.RegisterClass
      ⟨0, WNDPROC.WindowProc, 0, 0, hInstance, NULL, NULL, NULL, none, some "MyWindowClass"⟩,
    Call.CreateWindowEx 0 "MyWindowClass" "Cửa sổ đầu tiên bằng C" WS_OVERLAPPEDWINDOW
      CW_USEDEFAULT CW_USEDEFAULT 400 200 NULL NULL hInstance NULL,
    Call.CreateWindowEx 0 "BUTTON" "Nhấn tôi"
      (WS_TABSTOP ||| WS_VISIBLE ||| WS_CHILD ||| BS_DEFPUSHBUTTON)
      130 70 120 30 hwnd 1 hInstance NULL,
    Call.ShowWindow hwnd nCmdShow,
    Call.UpdateWindow hwnd ]

/-- The handle the platform returns for the top-level window `WinMain`
creates, when `WinMain` starts from the trace `t`. -/
def mainWindow (P : Platform) (t : Trace) (hInstance : HINSTANCE) : HWND :=
  (P (t ++ [Call.RegisterClass (windowClass hInstance)])
    (Call.CreateWindowEx 0 CLASS_NAME "Cửa sổ đầu tiên bằng C" WS_OVERLAPPEDWINDOW
      CW_USEDEFAULT CW_USEDEFAULT 400 200 NULL NULL hInstance NULL)).handle

/-! ## Sample platforms -/

/-- A platform that answers every call with the integer `v`, a null handle and
a zeroed message. -/
def constPlatform (v : Int) : Platform := fun _ _ => ⟨v, NULL, MSG.zero⟩

/-- A platform that creates windows with handle `h` and serves the queue `ms`
to the pulls: the pull number `k` gets message `k` with result 1, and every
pull past the queue gets result 0 with a message carrying `code`. -/
def queuePlatform (h : HWND) (ms : List MSG) (code : Nat) : Platform := fun t c =>
  match c with
  | Call.GetMessage _ _ _ =>
    match ms.get? (t.filter Call.isGetMessage).length with
    | some m => ⟨1, NULL, m⟩
    | none => ⟨0, NULL, ⟨NULL, 0x0012, code, 0, 0, ⟨0, 0⟩⟩⟩
  | _ => ⟨0, h, MSG.zero⟩

/-! ## Basic facts -/

theorem LOWORD_eq_mod (l : Nat) : LOWORD l = l % 65536 := by
  unfold LOWORD
  have h := Nat.and_pow_two_sub_one_eq_mod l 16
  norm_num at h
  rw [h]
  exact Nat.mod_mod _ _

theorem WM_COMMAND_ne_WM_DESTROY : ¬ (WM_COMMAND = WM_DESTROY) := by decide

theorem dialogs_append (s t : Trace) : dialogs (s ++ t) = dialogs s ++ dialogs t := by
  simp [dialogs]

theorem quits_append (s t : Trace) : quits (s ++ t) = quits s ++ quits t := by
  simp [quits]

/-- The trace `WindowProc` returns, in closed form. -/
theorem WindowProc_trace (P : Platform) (t : Trace) (hwnd : HWND) (msg : UINT)
    (wParam : WPARAM) (lParam : LPARAM) :
    (WindowProc P t hwnd msg wParam lParam).2 =
      t ++ (if msg = WM_DESTROY then [Call.PostQuitMessage 0]
        else (if msg = WM_COMMAND ∧ wParam % 65536 = 1 then
            [Call.MessageBox hwnd "Bạn đã nhấn nút!" "Thông báo" (MB_OK ||| MB_ICONINFORMATION)]
          else []) ++ [Call.DefWindowProc hwnd msg wParam lParam]) := by
  unfold WindowProc call
  rw [LOWORD_eq_mod]
  by_cases h1 : msg = WM_DESTROY
  · simp [h1]
  · by_cases h2 : msg = WM_COMMAND
    · by_cases h3 : wParam % 65536 = 1
      · simp [h2, h3, WM_COMMAND_ne_WM_DESTROY]
      · simp [h2, h3, WM_COMMAND_ne_WM_DESTROY]
    · simp [h1, h2]

/-- One more pull of budget: the loop pulls; on result 0 it is left, otherwise
the pulled message is translated, dispatched, and the loop goes on. -/
theorem messageLoop_succ (P : Platform) (fuel : Nat) (t : Trace) :
    messageLoop P (fuel + 1) t =
      if (P t pull).ret = 0 then (t ++ [pull], true)
      else messageLoop P fuel (t ++ iteration (P t pull).msg) := by
  by_cases h : (P t pull).ret = 0
  · simp [messageLoop, call, h]
  · simp [messageLoop, call, h, iteration]

theorem servesQueue_tail (P : Platform) (t : Trace) (m : MSG) (ms : List MSG)
    (h : servesQueue P t (m :: ms)) : servesQueue P (t ++ iteration m) ms := by
  intro k hk
  have hk1 : k + 1 < (m :: ms).length := by simpa using hk
  have h1 := h (k + 1) hk1
  simpa [List.append_assoc] using h1

theorem servesQueue_head (P : Platform) (t : Trace) (m : MSG) (ms : List MSG)
    (h : servesQueue P t (m :: ms)) : (P t pull).ret ≠ 0 ∧ (P t pull).msg = m := by
  have h0 := h 0 (by simp)
  simpa using h0

/-- A platform that serves the queue `ms` and then signals termination makes
the loop run one full iteration per message, in order, and leave on the next
pull, as soon as the budget exceeds the length of the queue. -/
theorem messageLoop_queue (P : Platform) (ms : List MSG) :
    ∀ (t : Trace) (fuel : Nat), servesQueue P t ms → thenTerminates P t ms →
      ms.length < fuel →
      messageLoop P fuel t = (t ++ ms.flatMap iteration ++ [pull], true) := by
  induction ms with
  | nil =>
    intro t fuel _ h0 hf
    obtain ⟨f, rfl⟩ : ∃ f, fuel = f + 1 := ⟨fuel - 1, by simp at hf; omega⟩
    have h0' : (P t pull).ret = 0 := by simpa [thenTerminates] using h0
    rw [messageLoop_succ]
    simp [h0']
  | cons m ms ih =>
    intro t fuel hq h0 hf
    obtain ⟨f, rfl⟩ : ∃ f, fuel = f + 1 := ⟨fuel - 1, by simp at hf; omega⟩
    obtain ⟨hr, hm⟩ := servesQueue_head P t m ms hq
    have h0' : thenTerminates P (t ++ iteration m) ms := by
      simpa [thenTerminates, List.append_assoc] using h0
    have hf' : ms.length < f := by simp at hf; omega
    rw [messageLoop_succ]
    simp only [hr, if_false, hm]
    rw [ih (t ++ iteration m) f (servesQueue_tail P t m ms hq) h0' hf']
    simp [List.append_assoc]

/-- Whatever the platform answers and whatever the budget, the loop only adds
pulls, translations and dispatches, and the first call it adds is a pull. -/
theorem messageLoop_calls (P : Platform) :
    ∀ (fuel : Nat) (t : Trace), ∃ rest, (messageLoop P fuel t).1 = t ++ rest ∧
      (∀ c, c ∈ rest → c.isLoopCall = true) ∧ (0 < fuel → rest.head? = some pull) := by
  intro fuel
  induction fuel with
  | zero =>
    intro t
    exact ⟨[], by simp [messageLoop], by simp, by simp⟩
  | succ f ih =>
    intro t
    rw [messageLoop_succ]
    by_cases h : (P t pull).ret = 0
    · refine ⟨[pull], by simp [h], ?_, by simp⟩
      intro c hc
      simp at hc
      subst hc
      rfl
    · obtain ⟨rest, h1, h2, _⟩ := ih (t ++ iteration (P t pull).msg)
      refine ⟨iteration (P t pull).msg ++ rest, by simp [h, h1], ?_, by simp [iteration]⟩
      intro c hc
      rcases List.mem_append.mp hc with hc | hc
      · simp [iteration] at hc
        rcases hc with rfl | rfl | rfl <;> rfl
      · exact h2 c hc

/-- The trace and result of `WinMain` when the top-level window was created:
the five startup calls, then the loop. -/
theorem WinMain_created (P : Platform) (fuel : Nat) (t : Trace)
    (hInstance hPrevInstance : HINSTANCE) (lpCmdLine : String) (nCmdShow : Int)
    (h : mainWindow P t hInstance ≠ NULL) :
    WinMain P fuel t hInstance hPrevInstance lpCmdLine nCmdShow =
      ((messageLoop P fuel
          (t ++ startupCalls hInstance nCmdShow (mainWindow P t hInstance))).1,
        if (messageLoop P fuel
          (t ++ startupCalls hInstance nCmdShow (mainWindow P t hInstance))).2 = true
        then some 0 else none) := by
  unfold mainWindow at h
  simp only [WinMain, call, h, if_false]
  have e : t ++ [Call.RegisterClass (windowClass hInstance)] ++
      [Call.CreateWindowEx 0 CLASS_NAME "Cửa sổ đầu tiên bằng C" WS_OVERLAPPEDWINDOW
        CW_USEDEFAULT CW_USEDEFAULT 400 200 NULL NULL hInstance NULL] ++
      [Call.CreateWindow "BUTTON" "Nhấn tôi"
        (WS_TABSTOP ||| WS_VISIBLE ||| WS_CHILD ||| BS_DEFPUSHBUTTON) 130 70 120 30
        (P (t ++ [Call.RegisterClass (windowClass hInstance)])
          (Call.CreateWindowEx 0 CLASS_NAME "Cửa sổ đầu tiên bằng C" WS_OVERLAPPEDWINDOW
            CW_USEDEFAULT CW_USEDEFAULT 400 200 NULL NULL hInstance NULL)).handle
        1 hInstance NULL] ++
      [Call.ShowWindow
        (P (t ++ [Call.RegisterClass (windowClass hInstance)])
          (Call.CreateWindowEx 0 CLASS_NAME "Cửa sổ đầu tiên bằng C" WS_OVERLAPPEDWINDOW
            CW_USEDEFAULT CW_USEDEFAULT 400 200 NULL NULL hInstance NULL)).handle nCmdShow] ++
      [Call.UpdateWindow
        (P (t ++ [Call.RegisterClass (windowClass hInstance)])
          (Call.CreateWindowEx 0 CLASS_NAME "Cửa sổ đầu tiên bằng C" WS_OVERLAPPEDWINDOW
            CW_USEDEFAULT CW_USEDEFAULT 400 200 NULL NULL hInstance NULL)).handle] =
      t ++ startupCalls hInstance nCmdShow (mainWindow P t hInstance) := by
    simp [startupCalls, mainWindow, windowClass, WNDCLASS.zero, CLASS_NAME, Call.CreateWindow]
  rw [e]
  cases (messageLoop P fuel
    (t ++ startupCalls hInstance nCmdShow (mainWindow P t hInstance))).2 <;> simp

/-! ## The window procedure -/

/-- C1, pass-through law: for a message kind other than `WM_DESTROY` and other
than the button's command (`WM_COMMAND` with sub-identifier 1), `WindowProc`
makes exactly one platform call, `DefWindowProc` with the same four arguments,
and returns what the platform answers to that call. -/
theorem WindowProc_pass_through (P : Platform) (t : Trace) (hwnd : HWND) (msg : UINT)
    (wParam : WPARAM) (lParam : LPARAM) (hd : msg ≠ WM_DESTROY)
    (hb : ¬ (msg = WM_COMMAND ∧ LOWORD wParam = 1)) :
    WindowProc P t hwnd msg wParam lParam =
      ((P t (Call.DefWindowProc hwnd msg wParam lParam)).ret,
        t ++ [Call.DefWindowProc hwnd msg wParam lParam]) := by
  unfold WindowProc call
  by_cases h2 : msg = WM_COMMAND
  · have h3 : LOWORD wParam ≠ 1 := fun h => hb ⟨h2, h⟩
    simp [hd, h3]
  · simp [hd, h2]

theorem WindowProc_pass_through_witness :
    WindowProc (constPlatform 7) [] 5 WM_CLOSE 1 0 =
        (7, [Call.DefWindowProc 5 WM_CLOSE 1 0]) ∧
      WindowProc (constPlatform 7) [] 5 WM_COMMAND 65538 0 =
        (7, [Call.DefWindowProc 5 WM_COMMAND 65538 0]) :=
  ⟨WindowProc_pass_through (constPlatform 7) [] 5 WM_CLOSE 1 0 (by decide) (by decide),
    WindowProc_pass_through (constPlatform 7) [] 5 WM_COMMAND 65538 0 (by decide) (by decide)⟩

/-- C2, termination handling: on `WM_DESTROY`, whatever the handle and the two
parameters, `WindowProc` makes exactly one platform call, `PostQuitMessage(0)`,
and returns 0: no dialog, no call of the default handler. -/
theorem WindowProc_destroy (P : Platform) (t : Trace) (hwnd : HWND)
    (wParam : WPARAM) (lParam : LPARAM) :
    WindowProc P t hwnd WM_DESTROY wParam lParam = (0, t ++ [Call.PostQuitMessage 0]) := by
  simp [WindowProc, call]

/-- C3, dialog iff button 1: on `WM_COMMAND` the dialogs `WindowProc` adds to
the trace are exactly one `MessageBox`, owned by the receiving window, with
body "Bạn đã nhấn nút!", title "Thông báo" and style
`MB_OK | MB_ICONINFORMATION`, when the low-order 16 bits of `wParam` are 1, and
none otherwise; so two command messages that agree on those 16 bits add the
same dialogs, whatever the high word of `wParam` and whatever `lParam`. -/
theorem WindowProc_dialog_iff_button (P : Platform) (t : Trace) (hwnd : HWND)
    (wParam : WPARAM) (lParam : LPARAM) :
    dialogs (WindowProc P t hwnd WM_COMMAND wParam lParam).2 =
        dialogs t ++
          (if wParam % 65536 = 1 then
            [Call.MessageBox hwnd "Bạn đã nhấn nút!" "Thông báo" (MB_OK ||| MB_ICONINFORMATION)]
          else []) ∧
      ∀ (wParam2 : WPARAM) (lParam2 : LPARAM), wParam2 % 65536 = wParam % 65536 →
        dialogs (WindowProc P t hwnd WM_COMMAND wParam2 lParam2).2 =
          dialogs (WindowProc P t hwnd WM_COMMAND wParam lParam).2 := by
  have key : ∀ (w : WPARAM) (l : LPARAM),
      dialogs (WindowProc P t hwnd WM_COMMAND w l).2 =
        dialogs t ++
          (if w % 65536 = 1 then
            [Call.MessageBox hwnd "Bạn đã nhấn nút!" "Thông báo" (MB_OK ||| MB_ICONINFORMATION)]
          else []) := by
    intro w l
    rw [WindowProc_trace, dialogs_append]
    by_cases h : w % 65536 = 1
    · simp [h, dialogs, WM_COMMAND, WM_DESTROY, Call.isMessageBox]
    · simp [h, dialogs, WM_COMMAND, WM_DESTROY, Call.isMessageBox]
  refine ⟨key wParam lParam, ?_⟩
  intro w2 l2 h
  rw [key w2 l2, key wParam lParam, h]

theorem WindowProc_dialog_iff_button_witness :
    dialogs (WindowProc (constPlatform 7) [] 5 WM_COMMAND 65537 9).2 =
      dialogs (WindowProc (constPlatform 7) [] 5 WM_COMMAND 1 0).2 :=
  (WindowProc_dialog_iff_button (constPlatform 7) [] 5 1 0).2 65537 9 (by decide)

/-- C9, the button command falls through: on `WM_COMMAND` with sub-identifier
1, `WindowProc` first calls `MessageBox`, then calls `DefWindowProc` exactly
once with the unchanged four arguments, and returns what the platform answers
to that call, not a fixed 0. -/
theorem WindowProc_button_falls_through (P : Platform) (t : Trace) (hwnd : HWND)
    (wParam : WPARAM) (lParam : LPARAM) (h : LOWORD wParam = 1) :
    WindowProc P t hwnd WM_COMMAND wParam lParam =
      ((P (t ++ [Call.MessageBox hwnd "Bạn đã nhấn nút!" "Thông báo"
            (MB_OK ||| MB_ICONINFORMATION)])
          (Call.DefWindowProc hwnd WM_COMMAND wParam lParam)).ret,
        t ++ [Call.MessageBox hwnd "Bạn đã nhấn nút!" "Thông báo"
            (MB_OK ||| MB_ICONINFORMATION),
          Call.DefWindowProc hwnd WM_COMMAND wParam lParam]) := by
  simp [WindowProc, call, h, WM_COMMAND, WM_DESTROY]

theorem WindowProc_button_falls_through_witness :
    WindowProc (constPlatform 7) [] 5 WM_COMMAND 1 0 =
      (7, [Call.MessageBox 5 "Bạn đã nhấn nút!" "Thông báo" (MB_OK ||| MB_ICONINFORMATION),
        Call.DefWindowProc 5 WM_COMMAND 1 0]) :=
  WindowProc_button_falls_through (constPlatform 7) [] 5 1 0 (by decide)

/-- C10, exit is signalled only on `WM_DESTROY`: the termination messages
`WindowProc` adds to the trace are exactly one `PostQuitMessage(0)` when the
message kind is `WM_DESTROY` and none for every other kind; so a
`PostQuitMessage` call is added if and only if the kind is `WM_DESTROY`. -/
theorem WindowProc_quits_iff_destroy (P : Platform) (t : Trace) (hwnd : HWND) (msg : UINT)
    (wParam : WPARAM) (lParam : LPARAM) :
    quits (WindowProc P t hwnd msg wParam lParam).2 =
        quits t ++ (if msg = WM_DESTROY then [Call.PostQuitMessage 0] else []) ∧
      ((∃ c, c ∈ (WindowProc P [] hwnd msg wParam lParam).2 ∧ c.isPostQuitMessage = true) ↔
        msg = WM_DESTROY) := by
  constructor
  · rw [WindowProc_trace, quits_append]
    by_cases h1 : msg = WM_DESTROY
    · simp [h1, quits, Call.isPostQuitMessage]
    · by_cases h2 : msg = WM_COMMAND ∧ wParam % 65536 = 1
      · simp [h2, quits, Call.isPostQuitMessage, WM_COMMAND_ne_WM_DESTROY]
      · simp [h1, h2, quits, Call.isPostQuitMessage]
  · rw [WindowProc_trace]
    by_cases h1 : msg = WM_DESTROY
    · simp [h1, Call.isPostQuitMessage]
    · by_cases h2 : msg = WM_COMMAND ∧ wParam % 65536 = 1
      · simp [h2, Call.isPostQuitMessage, WM_COMMAND_ne_WM_DESTROY]
      · simp [h1, h2, Call.isPostQuitMessage]

/-- The dialogs a delivered sequence adds are as many as its button commands. -/
theorem deliver_dialogs_length (P : Platform) (ms : List MSG) :
    ∀ t : Trace, (dialogs (deliver P t ms)).length =
      (dialogs t).length + (ms.filter isButtonCommand).length := by
  induction ms with
  | nil => intro t; simp [deliver]
  | cons m ms ih =>
    intro t
    rw [deliver, ih, WindowProc_trace, dialogs_append]
    by_cases h1 : m.message = WM_DESTROY
    · have hb : isButtonCommand m = false := by
        simp [isButtonCommand, h1, WM_COMMAND, WM_DESTROY]
      simp [h1, hb, dialogs, Call.isMessageBox]
    · by_cases h2 : m.message = WM_COMMAND ∧ m.wParam % 65536 = 1
      · have hb : isButtonCommand m = true := by simp [isButtonCommand, h2.1, h2.2]
        simp [h2, hb, dialogs, Call.isMessageBox, WM_COMMAND_ne_WM_DESTROY]
        omega
      · have hb : isButtonCommand m = false := by
          simp only [isButtonCommand, Bool.and_eq_false_iff, decide_eq_false_iff_not]
          by_cases h3 : m.message = WM_COMMAND
          · exact Or.inr (fun h4 => h2 ⟨h3, h4⟩)
          · exact Or.inl h3
        simp [h1, h2, hb, dialogs, Call.isMessageBox]

/-- C6, no deduplication of button commands: for every finite sequence of
messages delivered to `WindowProc`, the number of dialog invocations added to
the trace equals the number of `WM_COMMAND` messages of the sequence whose
sub-identifier is 1; and a button command delivered twice in a row adds
exactly two dialogs, one per delivery. -/
theorem deliver_no_deduplication (P : Platform) (t : Trace) (ms : List MSG) :
    (dialogs (deliver P t ms)).length =
        (dialogs t).length + (ms.filter isButtonCommand).length ∧
      ∀ m : MSG, isButtonCommand m = true →
        dialogs (deliver P t [m, m]) =
          dialogs t ++
            [Call.MessageBox m.hwnd "Bạn đã nhấn nút!" "Thông báo" (MB_OK ||| MB_ICONINFORMATION),
              Call.MessageBox m.hwnd "Bạn đã nhấn nút!" "Thông báo"
                (MB_OK ||| MB_ICONINFORMATION)] := by
  refine ⟨deliver_dialogs_length P ms t, ?_⟩
  intro m hm
  simp only [isButtonCommand, Bool.and_eq_true, decide_eq_true_eq] at hm
  obtain ⟨h1, h2⟩ := hm
  simp only [deliver]
  rw [WindowProc_trace, WindowProc_trace]
  simp [h1, h2, WM_COMMAND_ne_WM_DESTROY, dialogs, Call.isMessageBox]

theorem deliver_no_deduplication_witness :
    dialogs (deliver (constPlatform 7) [] [⟨5, WM_COMMAND, 1, 0, 0, ⟨0, 0⟩⟩,
        ⟨5, WM_COMMAND, 1, 0, 0, ⟨0, 0⟩⟩]) =
      [] ++ [Call.MessageBox 5 "Bạn đã nhấn nút!" "Thông báo" (MB_OK ||| MB_ICONINFORMATION),
        Call.MessageBox 5 "Bạn đã nhấn nút!" "Thông báo" (MB_OK ||| MB_ICONINFORMATION)] :=
  (deliver_no_deduplication (constPlatform 7) [] []).2 ⟨5, WM_COMMAND, 1, 0, 0, ⟨0, 0⟩⟩
    (by decide)

/-! ## The entry point -/

/-- C4, startup failure path: when `CreateWindowEx` yields `NULL` for the
top-level window, `WinMain` returns 0 for every instance handle, command line
and show-state flag, and the only platform calls it makes are the class
registration and that one window creation: no button, no `ShowWindow`, no
`UpdateWindow`, no pull, no dispatch, no second attempt. -/
theorem WinMain_creation_fails (P : Platform) (fuel : Nat) (t : Trace)
    (hInstance hPrevInstance : HINSTANCE) (lpCmdLine : String) (nCmdShow : Int)
    (h : mainWindow P t hInstance = NULL) :
    WinMain P fuel t hInstance hPrevInstance lpCmdLine nCmdShow =
      (t ++ [Call.RegisterClass
          ⟨0, WNDPROC.WindowProc, 0, 0, hInstance, NULL, NULL, NULL, none,
            some "MyWindowClass"⟩,
        Call.CreateWindowEx 0 "MyWindowClass" "Cửa sổ đầu tiên bằng C" WS_OVERLAPPEDWINDOW
          CW_USEDEFAULT CW_USEDEFAULT 400 200 NULL NULL hInstance NULL], some 0) := by
  unfold mainWindow at h
  simp only [WinMain, call, h, if_true]
  simp [windowClass, WNDCLASS.zero, CLASS_NAME]

theorem WinMain_creation_fails_witness :
    mainWindow (constPlatform 1) [] 3 = NULL ∧
      WinMain (constPlatform 1) 10 [] 3 0 "" 1 =
        ([] ++ [Call.RegisterClass
            ⟨0, WNDPROC.WindowProc, 0, 0, 3, NULL, NULL, NULL, none, some "MyWindowClass"⟩,
          Call.CreateWindowEx 0 "MyWindowClass" "Cửa sổ đầu tiên bằng C" WS_OVERLAPPEDWINDOW
            CW_USEDEFAULT CW_USEDEFAULT 400 200 NULL NULL 3 NULL], some 0) :=
  ⟨by rfl, WinMain_creation_fails (constPlatform 1) 10 [] 3 0 "" 1 (by rfl)⟩

/-- C7, startup success path: when `CreateWindowEx` yields a handle `hwnd` for
the top-level window, the calls `WinMain` adds to the trace are, in this order
and once each, the registration of the class "MyWindowClass" whose procedure is
`WindowProc`, the creation of the top-level window at
`(CW_USEDEFAULT, CW_USEDEFAULT)` with width 400 and height 200, the creation of
the child "BUTTON" at (130, 70) with size 120 by 30, parent `hwnd` and
identifier 1, `ShowWindow(hwnd, nCmdShow)` and `UpdateWindow(hwnd)`; whatever
follows is made of pulls, translations and dispatches only and starts with a
pull.  This holds for every platform, so whatever the button creation
returns. -/
theorem WinMain_startup_sequence (P : Platform) (fuel : Nat) (t : Trace)
    (hInstance hPrevInstance : HINSTANCE) (lpCmdLine : String) (nCmdShow : Int)
    (h : mainWindow P t hInstance ≠ NULL) :
    ∃ rest : List Call,
      (WinMain P fuel t hInstance hPrevInstance lpCmdLine nCmdShow).1 =
        t ++ [ Call.RegisterClass
            ⟨0, WNDPROC.WindowProc, 0, 0, hInstance, NULL, NULL, NULL, none,
              some "MyWindowClass"⟩,
          Call.CreateWindowEx 0 "MyWindowClass" "Cửa sổ đầu tiên bằng C" WS_OVERLAPPEDWINDOW
            CW_USEDEFAULT CW_USEDEFAULT 400 200 NULL NULL hInstance NULL,
          Call.CreateWindowEx 0 "BUTTON" "Nhấn tôi"
            (WS_TABSTOP ||| WS_VISIBLE ||| WS_CHILD ||| BS_DEFPUSHBUTTON)
            130 70 120 30 (mainWindow P t hInstance) 1 hInstance NULL,
          Call.ShowWindow (mainWindow P t hInstance) nCmdShow,
          Call.UpdateWindow (mainWindow P t hInstance) ] ++ rest ∧
      (∀ c, c ∈ rest → c.isLoopCall = true) ∧
      (0 < fuel → rest.head? = some (Call.GetMessage NULL 0 0)) := by
  obtain ⟨rest, h1, h2, h3⟩ :=
    messageLoop_calls P fuel (t ++ startupCalls hInstance nCmdShow (mainWindow P t hInstance))
  refine ⟨rest, ?_, h2, h3⟩
  rw [WinMain_created P fuel t hInstance hPrevInstance lpCmdLine nCmdShow h]
  simpa [startupCalls] using h1

theorem WinMain_startup_sequence_witness :
    mainWindow (queuePlatform 5 [] 0) [] 3 ≠ NULL ∧
      ∃ rest : List Call,
        (WinMain (queuePlatform 5 [] 0) 4 [] 3 0 "" 1).1 =
          [] ++ [ Call.RegisterClass
              ⟨0, WNDPROC.WindowProc, 0, 0, 3, NULL, NULL, NULL, none, some "MyWindowClass"⟩,
            Call.CreateWindowEx 0 "MyWindowClass" "Cửa sổ đầu tiên bằng C" WS_OVERLAPPEDWINDOW
              CW_USEDEFAULT CW_USEDEFAULT 400 200 NULL NULL 3 NULL,
            Call.CreateWindowEx 0 "BUTTON" "Nhấn tôi"
              (WS_TABSTOP ||| WS_VISIBLE ||| WS_CHILD ||| BS_DEFPUSHBUTTON)
              130 70 120 30 (mainWindow (queuePlatform 5 [] 0) [] 3) 1 3 NULL,
            Call.ShowWindow (mainWindow (queuePlatform 5 [] 0) [] 3) 1,
            Call.UpdateWindow (mainWindow (queuePlatform 5 [] 0) [] 3) ] ++ rest ∧
        (∀ c, c ∈ rest → c.isLoopCall = true) ∧
        (0 < 4 → rest.head? = some (Call.GetMessage NULL 0 0)) :=
  ⟨by decide, WinMain_startup_sequence (queuePlatform 5 [] 0) 4 [] 3 0 "" 1 (by decide)⟩

/-- C5, dispatch-loop termination: once the window `hwnd` has been created and
shown, if the pulls return nonzero for the messages `ms` and then 0, `WinMain`
returns exit code 0 as soon as the budget exceeds the number of messages; the
pull that returned 0 is the last call of the trace, so nothing is translated
or dispatched after it.  Nothing is assumed about the message that comes with
the result 0, so the exit code it carries plays no role, nor do the messages
before it. -/
theorem WinMain_terminates (P : Platform) (fuel : Nat) (t : Trace)
    (hInstance hPrevInstance : HINSTANCE) (lpCmdLine : String) (nCmdShow : Int)
    (ms : List MSG) (hw : mainWindow P t hInstance ≠ NULL)
    (hq : servesQueue P (t ++ startupCalls hInstance nCmdShow (mainWindow P t hInstance)) ms)
    (h0 : thenTerminates P
      (t ++ startupCalls hInstance nCmdShow (mainWindow P t hInstance)) ms)
    (hf : ms.length < fuel) :
    WinMain P fuel t hInstance hPrevInstance lpCmdLine nCmdShow =
      (t ++ startupCalls hInstance nCmdShow (mainWindow P t hInstance) ++
        ms.flatMap (fun m => [Call.GetMessage NULL 0 0, Call.TranslateMessage m,
          Call.DispatchMessage m]) ++ [Call.GetMessage NULL 0 0], some 0) := by
  rw [WinMain_created P fuel t hInstance hPrevInstance lpCmdLine nCmdShow hw,
    messageLoop_queue P ms _ fuel hq h0 hf]
  rfl

theorem WinMain_terminates_witness :
    mainWindow (queuePlatform 5 [⟨5, WM_COMMAND, 1, 0, 0, ⟨0, 0⟩⟩, ⟨5, WM_CLOSE, 0, 0, 0, ⟨0, 0⟩⟩] 3)
        [] 7 ≠ NULL ∧
      WinMain (queuePlatform 5 [⟨5, WM_COMMAND, 1, 0, 0, ⟨0, 0⟩⟩, ⟨5, WM_CLOSE, 0, 0, 0, ⟨0, 0⟩⟩] 3)
          3 [] 7 0 "" 1 =
        ([] ++ startupCalls 7 1 (mainWindow (queuePlatform 5
            [⟨5, WM_COMMAND, 1, 0, 0, ⟨0, 0⟩⟩, ⟨5, WM_CLOSE, 0, 0, 0, ⟨0, 0⟩⟩] 3) [] 7) ++
          [⟨5, WM_COMMAND, 1, 0, 0, ⟨0, 0⟩⟩, ⟨5, WM_CLOSE, 0, 0, 0, ⟨0, 0⟩⟩].flatMap
            (fun m => [Call.GetMessage NULL 0 0, Call.TranslateMessage m,
              Call.DispatchMessage m]) ++ [Call.GetMessage NULL 0 0], some 0) :=
  ⟨by decide,
    WinMain_terminates
      (queuePlatform 5 [⟨5, WM_COMMAND, 1, 0, 0, ⟨0, 0⟩⟩, ⟨5, WM_CLOSE, 0, 0, 0, ⟨0, 0⟩⟩] 3)
      3 [] 7 0 "" 1 [⟨5, WM_COMMAND, 1, 0, 0, ⟨0, 0⟩⟩, ⟨5, WM_CLOSE, 0, 0, 0, ⟨0, 0⟩⟩]
      (by decide) (by unfold servesQueue; decide) (by unfold thenTerminates; decide)
      (by decide)⟩

/-- C8, dispatch-loop routing: one more pull of budget makes the loop pull
once; on result 0 the loop is left, otherwise the pulled message is translated
and then dispatched and the loop goes on.  Hence, when the platform serves the
queue `ms` and then signals termination, the loop adds, for each message of
`ms` in queue order, a pull, its translation and then its dispatch, once each,
and a last pull. -/
theorem messageLoop_routing (P : Platform) (t : Trace) (ms : List MSG) :
    (∀ fuel : Nat, messageLoop P (fuel + 1) t =
        if (P t (Call.GetMessage NULL 0 0)).ret = 0 then (t ++ [Call.GetMessage NULL 0 0], true)
        else messageLoop P fuel
          (t ++ [Call.GetMessage NULL 0 0,
            Call.TranslateMessage (P t (Call.GetMessage NULL 0 0)).msg,
            Call.DispatchMessage (P t (Call.GetMessage NULL 0 0)).msg])) ∧
      (servesQueue P t ms → thenTerminates P t ms → ∀ fuel : Nat, ms.length < fuel →
        messageLoop P fuel t =
          (t ++ ms.flatMap (fun m => [Call.GetMessage NULL 0 0, Call.TranslateMessage m,
            Call.DispatchMessage m]) ++ [Call.GetMessage NULL 0 0], true)) := by
  constructor
  · intro fuel
    exact messageLoop_succ P fuel t
  · intro hq h0 fuel hf
    exact messageLoop_queue P ms t fuel hq h0 hf

theorem messageLoop_routing_witness :
    messageLoop (queuePlatform 5 [⟨5, WM_COMMAND, 1, 0, 0, ⟨0, 0⟩⟩, ⟨5, WM_CLOSE, 0, 0, 0, ⟨0, 0⟩⟩] 3)
        3 [] =
      ([] ++ [⟨5, WM_COMMAND, 1, 0, 0, ⟨0, 0⟩⟩, ⟨5, WM_CLOSE, 0, 0, 0, ⟨0, 0⟩⟩].flatMap
          (fun m => [Call.GetMessage NULL 0 0, Call.TranslateMessage m,
            Call.DispatchMessage m]) ++ [Call.GetMessage NULL 0 0], true) :=
  (messageLoop_routing
    (queuePlatform 5 [⟨5, WM_COMMAND, 1, 0, 0, ⟨0, 0⟩⟩, ⟨5, WM_CLOSE, 0, 0, 0, ⟨0, 0⟩⟩] 3) []
    [⟨5, WM_COMMAND, 1, 0, 0, ⟨0, 0⟩⟩, ⟨5, WM_CLOSE, 0, 0, 0, ⟨0, 0⟩⟩]).2
    (by unfold servesQueue; decide) (by unfold thenTerminates; decide) 3 (by decide)

end Todo
